import Mathlib

/-!
Verification development for the WESUP repository (files src/models/cdws_mil.py
and src/train.py). The Python code is shallowly embedded below: pure numeric
computations become Lean functions over the rationals, Python exceptions become
an explicit error type threaded through Except, and the stateful model
lifecycle becomes explicit state passing. Tensor values use exact rational
arithmetic; the two transcendental scalar operations of the loss (torch.log and
the fourth root used for generalized mean pooling) are taken as function
parameters, since no claim settled here depends on their values.
-/

/-- Python exception classes raised by the embedded code. AssertionError and
AttributeError are not subclasses of RuntimeError in Python, which matters for
the except clause in train.py. -/
inductive PyExc
  | runtimeError (msg : String)
  | assertionError
  | attributeError (msg : String)
  | otherError (nm : String) (msg : String)
  deriving DecidableEq

/-- True exactly for the RuntimeError class, the only class caught by the
except clause at src/train.py lines 105-106. -/
def PyExc.isRuntimeErr : PyExc → Bool
  | .runtimeError _ => true
  | _ => false

/-- A Python value stored in one of the CDWS weight attributes. The class body
of CDWS (src/models/cdws_mil.py lines 13-18) stores torch tensors in
fusion_weights and side_ac_weights but the plain Python int 10 in
fuse_ac_weight. Only one dimensional tensors occur there; the unsqueeze calls
in compute_loss add broadcast dimensions of size one, which do not change the
stored entries, so the embedding keeps the underlying entry list only. -/
inductive WeightVal
  | pyInt (n : ℤ)
  | qTensor1 (len : ℕ) (entries : Fin len → ℚ)

/-- Embedding of the Tensor.to(device) method call. A torch tensor supports it
and is returned unchanged (device placement is not modelled); a plain Python
int has no attribute named to, so the call raises AttributeError. -/
def WeightVal.toDevice : WeightVal → Except PyExc WeightVal
  | .pyInt _ => .error (.attributeError "int object has no attribute to")
  | .qTensor1 n d => .ok (.qTensor1 n d)

/-- Entry of a weight value at a flat index, defaulting to 0 out of range. The
source only reads indices that exist, so the default is never exercised. -/
def WeightVal.entry : WeightVal → ℕ → ℚ
  | .pyInt n, _ => (n : ℚ)
  | .qTensor1 len d, i => if h : i < len then d ⟨i, h⟩ else 0

/-- A rank four torch tensor of shape (B, C, H, W) with rational entries. -/
def Tensor4 (B C H W : ℕ) : Type := Fin B → Fin C → Fin H → Fin W → ℚ

/-- Mean over the two spatial dimensions, output.mean(dim=(2, 3)), giving a
tensor of shape (B, C). -/
def spatialMean {B C H W : ℕ} (t : Tensor4 B C H W) (b : Fin B) (c : Fin C) : ℚ :=
  (∑ i : Fin H, ∑ j : Fin W, t b c i j) / ((H : ℚ) * (W : ℚ))

/-- Mutable state of a CDWS instance that compute_loss reads and writes:
side_outputs and fused_output are None after construction
(src/models/cdws_mil.py lines 47-51), and the weight attributes start as the
class attributes of lines 17-18. -/
structure CDWSState (B H W : ℕ) where
  side_outputs : Option (Tensor4 B 3 H W)
  fused_output : Option (Tensor4 B 1 H W)
  side_ac_weights : WeightVal
  fuse_ac_weight : WeightVal

/-- State of a freshly constructed CDWS instance, per the constructor at
src/models/cdws_mil.py lines 23-53 and the class attributes at lines 13-21. -/
def initCDWSState (B H W : ℕ) : CDWSState B H W :=
  { side_outputs := none
    fused_output := none
    side_ac_weights := .qTensor1 3 ![(2.5 : ℚ), 5, 10]
    fuse_ac_weight := .pyInt 10 }

/-- Embedding of the inner function mil_loss of compute_loss
(src/models/cdws_mil.py lines 121-123), lambda lifted: the captured
target_class (already unsqueezed to (B, 1) and broadcast over the channel
axis) becomes the parameter tc, and qlog and qroot stand for torch.log and
raising to the power 1 / gmp with gmp = 4. Result shape (B, C). -/
def mil_loss {B C H W : ℕ} (qlog qroot : ℚ → ℚ) (tc : Fin B → ℚ)
    (output : Tensor4 B C H W) : Fin B → Fin C → ℚ := fun b c =>
  tc b * qlog (qroot (spatialMean output b c)) +
    (1 - tc b) * qlog (1 - qroot (spatialMean output b c))

/-- Embedding of the inner function ac_loss of compute_loss
(src/models/cdws_mil.py lines 125-127). torch.sum with no dim argument sums
every entry of the broadcast difference (area_pred of shape (B, C) minus
target_area of shape (B, 1)) into one scalar, which is then multiplied by the
(B, 1) target_class, so the result has shape (B, 1). -/
def ac_loss {B C H W : ℕ} (tc ta : Fin B → ℚ) (output : Tensor4 B C H W) :
    Fin B → Fin 1 → ℚ := fun b _ =>
  tc b * ∑ b2 : Fin B, ∑ c2 : Fin C, (spatialMean output b2 c2 - ta b2) ^ 2

/-- Embedding of CDWS.compute_loss (src/models/cdws_mil.py lines 100-145).
The two assert statements of lines 114-115 raise AssertionError while either
output attribute is still None. The unsqueeze(-1) calls on target_class and
target_area only add a broadcast axis, handled here by indexing conventions.
side_ac_weights.to(device) succeeds on the tensor class attribute, and the
(1, 3) times (B, 1) broadcast in line 133-134 pairs weight index c with the
single ac column. fuse_ac_weight.to(device) is reached at line 139 with
whatever value the attribute holds; on the int class attribute it raises
AttributeError. On success the function returns the per sample loss of shape
(B,) (line 143 squeeze, re-broadcast by the addition of line 145) together
with the mutated state. -/
def compute_loss {B H W : ℕ} (qlog qroot : ℚ → ℚ) (st : CDWSState B H W)
    (target_class target_area : Fin B → ℚ) :
    Except PyExc ((Fin B → ℚ) × CDWSState B H W) :=
  match st.side_outputs, st.fused_output with
  | none, _ => .error .assertionError
  | some _, none => .error .assertionError
  | some so, some fo =>
    let tc : Fin B → ℚ := target_class
    let ta : Fin B → ℚ := target_area
    let side_mil := mil_loss qlog qroot tc so
    let side_ac := ac_loss tc ta so
    match st.side_ac_weights.toDevice with
    | .error e => .error e
    | .ok saw =>
      let side_loss : Fin B → Fin 3 → ℚ := fun b c =>
        side_mil b c + saw.entry c * side_ac b 0
      let side_loss_summed : Fin B → ℚ := fun b => ∑ c : Fin 3, side_loss b c
      let fuse_mil := mil_loss qlog qroot tc fo
      let fuse_ac := ac_loss tc ta fo
      match st.fuse_ac_weight.toDevice with
      | .error e => .error e
      | .ok faw =>
        let fuse_loss : Fin B → ℚ := fun b =>
          fuse_mil b 0 + faw.entry 0 * fuse_ac b 0
        .ok (fun b => side_loss_summed b + fuse_loss b,
             { st with side_ac_weights := saw, fuse_ac_weight := faw })

/-- Spatial size (height, width) of a feature map. -/
structure Shp where
  h : ℕ
  w : ℕ
  deriving DecidableEq

/-- Output length of a torch Conv2d with kernel size k, padding p and stride
1 along one spatial dimension. Torch raises RuntimeError when the padded
input is smaller than the kernel; otherwise the output length is
n + 2p - k + 1. -/
def conv2dDim (k p n : ℕ) : Except PyExc ℕ :=
  if n + 2 * p < k then
    .error (.runtimeError "kernel size can not be greater than actual input size")
  else
    .ok (n + 2 * p - k + 1)

/-- Conv2d output shape for both spatial dimensions. -/
def convShape (k p : ℕ) (s : Shp) : Except PyExc Shp := do
  let hh ← conv2dDim k p s.h
  let ww ← conv2dDim k p s.w
  .ok ⟨hh, ww⟩

/-- Output length of MaxPool2d(2, stride=2) along one dimension: floor of
(n - 2) / 2 plus 1, which equals n / 2 rounded down; torch raises
RuntimeError when the computed output size would be empty (n below 2). -/
def maxPool2Dim (n : ℕ) : Except PyExc ℕ :=
  if n < 2 then .error (.runtimeError "output size is too small")
  else .ok ((n - 2) / 2 + 1)

/-- MaxPool2d(2, stride=2) output shape for both spatial dimensions. -/
def poolShape (s : Shp) : Except PyExc Shp := do
  let hh ← maxPool2Dim s.h
  let ww ← maxPool2Dim s.w
  .ok ⟨hh, ww⟩

/-- Embedding of torch.cat([side1, side2, side3], dim=1) at shape level
(src/models/cdws_mil.py line 92): concatenation along the channel axis
requires every other dimension, in particular the spatial sizes, to agree,
else torch raises RuntimeError. -/
def catSameShape (s1 s2 s3 : Shp) : Except PyExc Shp :=
  if s1 = s2 ∧ s1 = s3 then .ok s1
  else .error (.runtimeError "sizes of tensors must match except in dimension 1")

/-- Shape semantics of the backbone and side convolutions of CDWS.forward
(src/models/cdws_mil.py lines 75-89), in the exact order of the source: the
3x3 padding 1 convolutions and relu preserve the spatial size, each side
convolution (1x1, padding 0) taps the pre-pooling feature map, and each stage
ends with a 2x max pooling. Returns the shape of the returned feature map h
together with the shapes of side1, side2 and side3. -/
def forward_stages (x : Shp) : Except PyExc (Shp × Shp × Shp × Shp) := do
  let h ← convShape 3 1 x        -- conv1_1
  let h ← convShape 3 1 h        -- conv1_2
  let side1 ← convShape 1 0 h    -- side_conv1, before pool1
  let h ← poolShape h            -- pool1
  let h ← convShape 3 1 h        -- conv2_1
  let h ← convShape 3 1 h        -- conv2_2
  let side2 ← convShape 1 0 h    -- side_conv2, before pool2
  let h ← poolShape h            -- pool2
  let h ← convShape 3 1 h        -- conv3_1
  let h ← convShape 3 1 h        -- conv3_2
  let h ← convShape 3 1 h        -- conv3_3
  let side3 ← convShape 1 0 h    -- side_conv3, before pool3
  let h ← poolShape h            -- pool3
  .ok (h, side1, side2, side3)

/-- Shape semantics of CDWS.forward (src/models/cdws_mil.py lines 72-98):
after the three stages, line 92 concatenates the three side outputs along the
channel axis, line 95 forms the fused output at the same spatial shape, and
line 98 returns the final feature map h. Result: (shape of the returned h,
shape of self.side_outputs, shape of self.fused_output). -/
def forward (x : Shp) : Except PyExc (Shp × Shp × Shp) := do
  let (h, s1, s2, s3) ← forward_stages x
  let catS ← catSameShape s1 s2 s3
  .ok (h, catS, catS)

/-- Fixed fusion weights of the CDWS class body (src/models/cdws_mil.py line
14), torch.tensor([0.2, 0.35, 0.45]). -/
def fusion_weights : Fin 3 → ℚ := ![(0.2 : ℚ), 0.35, 0.45]

/-- Value semantics of the fusion step (src/models/cdws_mil.py lines 94-96):
the concatenated side outputs are multiplied elementwise by the fusion
weights viewed as shape (1, 3, 1, 1) and summed over the stage axis with
keepdim=True, giving the fused output of shape (B, 1, H, W). -/
def fusedOutput {B H W : ℕ} (so : Tensor4 B 3 H W) : Tensor4 B 1 H W :=
  fun b _ i j => ∑ s : Fin 3, so b s i j * fusion_weights s

/-- Shape level lifecycle state of one CDWS instance: whether (and at what
spatial shape) the side_outputs and fused_output attributes are populated.
Both are None right after construction (src/models/cdws_mil.py lines 47-51). -/
structure LifeState where
  side_outputs : Option Shp
  fused_output : Option Shp
  deriving DecidableEq

/-- Lifecycle state of a freshly constructed instance. -/
def initLife : LifeState := ⟨none, none⟩

/-- Effect of one forward call on the lifecycle state: when forward raises,
the exception propagates before the assignments of lines 92-96 complete, so
the attributes keep their previous values; when it succeeds, both attributes
are populated with the new outputs. -/
def forward_step (st : LifeState) (x : Shp) : LifeState :=
  match forward x with
  | .error _ => st
  | .ok (_, catS, fusedS) => { st with side_outputs := some catS, fused_output := some fusedS }

/-- The assertion guard of compute_loss (src/models/cdws_mil.py lines
114-115): both attributes must be populated. -/
def lossGuard (st : LifeState) : Bool :=
  st.side_outputs.isSome && st.fused_output.isSome

/-- Effect of one compute_loss call on the lifecycle state: compute_loss
reassigns only the weight attributes (lines 131 and 139), never side_outputs
or fused_output, so at this granularity the state is unchanged. -/
def loss_step (st : LifeState) : LifeState := st

/-- One method call on a CDWS instance, at lifecycle granularity. -/
inductive COp
  | forwardOp (x : Shp)
  | lossOp
  deriving DecidableEq

/-- Run a sequence of method calls from a given lifecycle state. -/
def runOps : List COp → LifeState → LifeState
  | [], st => st
  | .forwardOp x :: ops, st => runOps ops (forward_step st x)
  | .lossOp :: ops, st => runOps ops (loss_step st)

/-- Whether a trace contains at least one forward call (successful or not). -/
def hasForwardCall (ops : List COp) : Bool :=
  ops.any fun op => match op with
    | .forwardOp _ => true
    | .lossOp => false

/-- Whether one method call is a forward call that completes without raising. -/
def forwardSucceeded : COp → Bool
  | .forwardOp x => match forward x with
      | .ok _ => true
      | .error _ => false
  | .lossOp => false

/-- Embedding of the per batch loop of train_one_epoch (src/train.py lines
102-106). step d models train_one_iteration on batch d. An iteration that
raises RuntimeError is caught: its message is logged as a warning and the
loop moves on to the next batch. Any other exception class propagates out of
the loop. On normal completion the loop yields the warning messages logged,
in order. -/
def runEpochLoop {α : Type} (step : α → Except PyExc Unit) : List α → Except PyExc (List String)
  | [] => .ok []
  | d :: rest =>
    match step d with
    | .ok _ => runEpochLoop step rest
    | .error (.runtimeError msg) => (runEpochLoop step rest).map fun ws => msg :: ws
    | .error e => .error e

/-- Warning message that the loop of lines 102-106 logs for one batch: the
exception message when the iteration raises RuntimeError, nothing otherwise. -/
def warnOf {α : Type} (step : α → Except PyExc Unit) (d : α) : Option String :=
  match step d with
  | .error (.runtimeError msg) => some msg
  | _ => none

/-- Train or validation phase of one epoch. -/
inductive Phase
  | train
  | val
  deriving DecidableEq

/-- Embedding of train_one_epoch (src/train.py lines 89-109): the phase list
is [train] when no_val holds and [train, val] otherwise, and each phase runs
the per batch loop over its dataloader. -/
def train_one_epoch {α : Type} (dataloaders : Phase → List α)
    (step : Phase → α → Except PyExc Unit) (no_val : Bool) :
    Except PyExc (List String) :=
  (if no_val then [Phase.train] else [Phase.train, Phase.val]).foldlM
    (fun ws ph => (runEpochLoop (step ph) (dataloaders ph)).map (fun more => ws ++ more)) []

/-- A file in the experiment record directory, as relevant to the epoch end
block of fit: checkpoint files are the ckpt.{epoch:04d}.pth files written by
model.save_checkpoint and are exactly the files matched by the glob pattern
checkpoints/*.pth of src/train.py line 171. -/
inductive RecFile
  | pthCkpt (epoch : ℕ)
  | otherFile (nm : String)
  deriving DecidableEq

/-- Whether a record file matches the glob pattern *.pth used at line 171. -/
def isPthFile : RecFile → Bool
  | .pthCkpt _ => true
  | .otherFile _ => false

/-- Persistent side effects of the training loop tracked by the embedding:
the files in the checkpoints directory, and how many times the metrics
history (tracker.save) and the learning curve plot have been written. -/
structure RecordState where
  checkpointFiles : List RecFile
  historySaves : ℕ
  curvePlots : ℕ
  deriving DecidableEq

/-- Embedding of the end of epoch block of fit (src/train.py lines 164-178),
in source order: tracker.save() persists the metrics history,
record.plot_learning_curves renders the curves, the glob loop removes every
*.pth file from the checkpoints directory, and model.save_checkpoint then
writes ckpt.{epoch:04d}.pth. ckptWriteOk models whether that final write
completes; the deletions and the metrics save precede it either way. -/
def endOfEpoch (st : RecordState) (epoch : ℕ) (ckptWriteOk : Bool) : RecordState :=
  let st1 : RecordState := { st with historySaves := st.historySaves + 1 }
  let st2 : RecordState := { st1 with curvePlots := st1.curvePlots + 1 }
  let st3 : RecordState :=
    { st2 with checkpointFiles := st2.checkpointFiles.filter fun f => !(isPthFile f) }
  if ckptWriteOk then
    { st3 with checkpointFiles := st3.checkpointFiles ++ [RecFile.pthCkpt epoch] }
  else st3

/-- A persisted checkpoint record (src/train.py lines 114-117 and 174-178):
at least the epoch number, the model state and the optimizer state dict.
The model and optimizer state types are abstract parameters. -/
structure Checkpoint (μ ω : Type) where
  epoch : ℕ
  model_state : μ
  optimizer_state_dict : ω

/-- A model as the training loop sees it: just its restorable state. -/
structure TrainModel (μ : Type) where
  state : μ

/-- An optimizer as the training loop sees it: just its restorable state
dict (which carries the learning rate among other things). -/
structure Optimizer (ω : Type) where
  state_dict : ω

/-- Modelled from the spec: initialize_model (models/__init__.py, not under
src/) constructs the model and, when a checkpoint is given, restores the
saved model state from it. -/
def init_model {μ ω : Type} (freshState : μ) :
    Option (Checkpoint μ ω) → TrainModel μ
  | none => ⟨freshState⟩
  | some c => ⟨c.model_state⟩

/-- Modelled from the spec: model.get_default_optimizer (base model class,
not under src/) builds the optimizer and, when a checkpoint is given, loads
the saved optimizer state dict into it. -/
def get_default_optimizer {μ ω : Type} (freshOpt : ω) :
    Option (Checkpoint μ ω) → Optimizer ω
  | none => ⟨freshOpt⟩
  | some c => ⟨c.optimizer_state_dict⟩

/-- Embedding of src/train.py line 146: the first epoch number is
checkpoint.epoch + 1 when resuming and 1 otherwise. -/
def initial_epoch {μ ω : Type} : Option (Checkpoint μ ω) → ℕ
  | some c => c.epoch + 1
  | none => 1

/-- Embedding of src/train.py line 147: the number of the last epoch,
args.epochs + initial_epoch - 1. -/
def total_epochs {μ ω : Type} (ckpt : Option (Checkpoint μ ω)) (argsEpochs : ℕ) : ℕ :=
  argsEpochs + initial_epoch ckpt - 1

/-- The epoch numbers the loop of src/train.py line 149 iterates over:
range(initial_epoch, total_epochs + 1). -/
def epochsRun {μ ω : Type} (ckpt : Option (Checkpoint μ ω)) (argsEpochs : ℕ) : List ℕ :=
  List.range' (initial_epoch ckpt) (total_epochs ckpt argsEpochs + 1 - initial_epoch ckpt)

/-- A concrete iteration function over batches indexed by naturals, used to
exercise the epoch loop: batch 0 raises RuntimeError (a typical recoverable
device failure), batch 3 raises AttributeError (the class of error that
compute_loss of CDWS actually raises), every other batch succeeds. -/
def demoStep : ℕ → Except PyExc Unit
  | 0 => .error (.runtimeError "cuda out of memory")
  | 3 => .error (.attributeError "int object has no attribute to")
  | _ => .ok ()

/-- Characterization of the compute_loss assertion guard along any sequence
of method calls: it holds after the trace exactly when it held before or
some forward call in the trace completed without raising, since a completed
forward populates both output attributes, a raising forward leaves the state
unchanged, and compute_loss never clears the outputs. -/
theorem lossGuard_runOps (ops : List COp) :
    ∀ st : LifeState, lossGuard (runOps ops st) = true
      ↔ (lossGuard st = true ∨ ∃ op ∈ ops, forwardSucceeded op = true) := by
  induction ops with
  | nil => intro st; simp [runOps]
  | cons op rest ih =>
    intro st
    cases op with
    | lossOp =>
      simp only [runOps, loss_step, ih st, List.exists_mem_cons_iff, forwardSucceeded]
      tauto
    | forwardOp x =>
      simp only [runOps]
      rw [ih (forward_step st x)]
      cases hf : forward x with
      | error e =>
        simp [forward_step, hf, forwardSucceeded, List.exists_mem_cons_iff]
      | ok v =>
        simp [forward_step, hf, forwardSucceeded, List.exists_mem_cons_iff, lossGuard]


/-- C1: the claim states that after a forward pass, compute_loss returns one
scalar loss per batch element with the stated stage weights. In fact the
attribute CDWS.fuse_ac_weight is the Python int 10, so the call
self.fuse_ac_weight.to(device) at src/train line 139 of cdws_mil.py raises
AttributeError on every invocation that passes the assertions: even with the
side and fused outputs populated (here constant one half maps, B = 1,
target_class = [1], target_area = [0.3]), compute_loss raises instead of
returning a loss tensor, for every interpretation of the transcendental
scalar functions. -/
theorem C1_compute_loss_raises_attribute_error :
    ∀ qlog qroot : ℚ → ℚ,
      compute_loss qlog qroot
        ({ initCDWSState 1 4 4 with
           side_outputs := some fun _ _ _ _ => (1 : ℚ) / 2
           fused_output := some fun _ _ _ _ => (1 : ℚ) / 2 } : CDWSState 1 4 4)
        ![(1 : ℚ)] ![(0.3 : ℚ)]
      = .error (.attributeError "int object has no attribute to") :=
  fun _ _ => rfl

/-- C2: the claim states that forward returns the final stage feature map at
spatial size (H/8, W/8) for inputs divisible by 8. The backbone does compute
that feature map (for 8 by 8 input the stages yield h of shape (1, 1) and
side outputs of shapes (8,8), (4,4), (2,2); for 16 by 24 input, h of shape
(2, 3)), but before returning it the source concatenates the three side
outputs along the channel axis at those three different spatial sizes, so
torch.cat raises RuntimeError and forward never returns. -/
theorem C2_forward_raises_at_side_output_cat :
    forward ⟨8, 8⟩
        = .error (.runtimeError "sizes of tensors must match except in dimension 1") ∧
    forward ⟨16, 24⟩
        = .error (.runtimeError "sizes of tensors must match except in dimension 1") ∧
    forward_stages ⟨8, 8⟩ = .ok (⟨1, 1⟩, ⟨8, 8⟩, ⟨4, 4⟩, ⟨2, 2⟩) ∧
    forward_stages ⟨16, 24⟩ = .ok (⟨2, 3⟩, ⟨16, 24⟩, ⟨8, 12⟩, ⟨4, 6⟩) :=
  ⟨rfl, rfl, rfl, rfl⟩

/-- C3: the claim states that after every forward pass the fused output is
the convex combination of the side outputs with weights (0.2, 0.35, 0.45)
summing to one, hence bounded per pixel by their minimum and maximum. The
fusion arithmetic of lines 94-96 does have exactly these properties, proved
here for arbitrary side values bounded between lo and hi, but no forward
pass ever reaches it: forward raises RuntimeError at the side output
concatenation of line 92 (final conjunct), so fused_output is never
populated. -/
theorem C3_fusion_is_convex_combination_but_unreached
    {B H W : ℕ} (so : Tensor4 B 3 H W) (b : Fin B) (c : Fin 1) (i : Fin H) (j : Fin W)
    (lo hi : ℚ) (hlo : ∀ s : Fin 3, lo ≤ so b s i j) (hhi : ∀ s : Fin 3, so b s i j ≤ hi) :
    fusedOutput so b c i j = ∑ s : Fin 3, so b s i j * fusion_weights s ∧
    (∑ s : Fin 3, fusion_weights s) = 1 ∧
    lo ≤ fusedOutput so b c i j ∧ fusedOutput so b c i j ≤ hi ∧
    forward ⟨8, 8⟩
        = .error (.runtimeError "sizes of tensors must match except in dimension 1") := by
  refine ⟨rfl, by norm_num [fusion_weights, Fin.sum_univ_three], ?_, ?_, rfl⟩
  · have h0 := hlo 0
    have h1 := hlo 1
    have h2 := hlo 2
    simp only [fusedOutput, fusion_weights, Fin.sum_univ_three, Matrix.cons_val_zero,
      Matrix.cons_val_one, Matrix.head_cons]
    norm_num
    linarith
  · have h0 := hhi 0
    have h1 := hhi 1
    have h2 := hhi 2
    simp only [fusedOutput, fusion_weights, Fin.sum_univ_three, Matrix.cons_val_zero,
      Matrix.cons_val_one, Matrix.head_cons]
    norm_num
    linarith

/-- C3 witness: the general statement applied at a concrete pixel with side
values 0, one half and 1, so lo = 0 and hi = 1; the fused value there is
five eighths. -/
theorem C3_fusion_witness :
    fusedOutput (fun _ s _ _ => (![0, 1/2, 1] : Fin 3 → ℚ) s) (0 : Fin 1) (0 : Fin 1)
        (0 : Fin 1) (0 : Fin 1)
      = ∑ s : Fin 3, (![0, 1/2, 1] : Fin 3 → ℚ) s * fusion_weights s ∧
    (∑ s : Fin 3, fusion_weights s) = 1 ∧
    (0 : ℚ) ≤ fusedOutput (fun _ s _ _ => (![0, 1/2, 1] : Fin 3 → ℚ) s) (0 : Fin 1) (0 : Fin 1)
        (0 : Fin 1) (0 : Fin 1) ∧
    fusedOutput (fun _ s _ _ => (![0, 1/2, 1] : Fin 3 → ℚ) s) (0 : Fin 1) (0 : Fin 1)
        (0 : Fin 1) (0 : Fin 1) ≤ 1 ∧
    forward ⟨8, 8⟩
        = .error (.runtimeError "sizes of tensors must match except in dimension 1") :=
  C3_fusion_is_convex_combination_but_unreached
    (fun _ s _ _ => (![0, 1/2, 1] : Fin 3 → ℚ) s) 0 0 0 0 0 1
    (by intro s; fin_cases s <;> norm_num)
    (by intro s; fin_cases s <;> norm_num)

/-- C4: on a freshly constructed instance (side_outputs and fused_output both
None), every compute_loss call fails with AssertionError, for every batch
size, spatial size, targets and interpretation of the transcendental scalar
functions; the failure is an exception, never an ordinary return value. -/
theorem C4_compute_loss_asserts_before_any_forward :
    ∀ (B H W : ℕ) (qlog qroot : ℚ → ℚ) (tc ta : Fin B → ℚ),
      compute_loss qlog qroot (initCDWSState B H W) tc ta
        = .error .assertionError :=
  fun _ _ _ _ _ _ _ => rfl

/-- C5: the claim states that with target_class = [1, 0] and
target_area = [0.3, 0.0] the returned per sample loss has shape (2,) with a
zero area consistency contribution for sample 2. The gating itself is real
(ac_loss multiplies by target_class), but compute_loss never returns at all:
on this exact batch, with the outputs populated, it raises AttributeError at
self.fuse_ac_weight.to(device) because fuse_ac_weight is the Python int 10. -/
theorem C5_compute_loss_raises_on_claimed_scenario :
    ∀ qlog qroot : ℚ → ℚ,
      compute_loss qlog qroot
        ({ initCDWSState 2 2 2 with
           side_outputs := some fun _ _ _ _ => (1 : ℚ) / 2
           fused_output := some fun _ _ _ _ => (1 : ℚ) / 2 } : CDWSState 2 2 2)
        ![(1 : ℚ), 0] ![(0.3 : ℚ), 0]
      = .error (.attributeError "int object has no attribute to") :=
  fun _ _ => rfl

/-- C6: in the per batch loop of train_one_epoch, every iteration that
raises RuntimeError is caught and logged as a warning and the loop proceeds
to the next batch: when every batch either succeeds or raises RuntimeError,
the whole loop completes normally and the warnings logged are exactly the
messages of the RuntimeError batches, in order. -/
theorem C6_runtime_error_skips_iteration_and_continues {α : Type}
    (step : α → Except PyExc Unit) (ds : List α)
    (h : ∀ d ∈ ds, step d = .ok () ∨ ∃ m, step d = .error (.runtimeError m)) :
    runEpochLoop step ds = .ok (ds.filterMap (warnOf step)) := by
  induction ds with
  | nil => rfl
  | cons d rest ih =>
    have hrest := ih fun x hx => h x (List.mem_cons_of_mem d hx)
    rcases h d (List.mem_cons_self d rest) with hok | ⟨m, herr⟩
    · simp [runEpochLoop, List.filterMap_cons, warnOf, hok, hrest]
    · simp [runEpochLoop, List.filterMap_cons, warnOf, herr, hrest, Except.map]

/-- C6 witness: a three batch epoch whose first batch raises RuntimeError
runs to completion with exactly that one warning logged. -/
theorem C6_witness : runEpochLoop demoStep [0, 1, 2] = .ok ["cuda out of memory"] := by
  rw [C6_runtime_error_skips_iteration_and_continues demoStep [0, 1, 2] ?_]
  · rfl
  · intro d hd
    fin_cases hd
    · exact Or.inr ⟨"cuda out of memory", rfl⟩
    · exact Or.inl rfl
    · exact Or.inl rfl

/-- C7: the end of epoch block of fit persists the metrics history exactly
once regardless of the checkpoint outcome, and deletes every previously
written checkpoint file before writing the new one, so afterwards the
checkpoint files present are at most the one named by the current epoch
(exactly that one when the write completes, none when it does not). -/
theorem C7_latest_checkpoint_only_and_metrics_always :
    ∀ (st : RecordState) (epoch : ℕ) (ckptWriteOk : Bool),
      (endOfEpoch st epoch ckptWriteOk).historySaves = st.historySaves + 1 ∧
      (endOfEpoch st epoch ckptWriteOk).checkpointFiles.filter isPthFile
        = (if ckptWriteOk then [RecFile.pthCkpt epoch] else []) := by
  intro st epoch ckptWriteOk
  have hclear : ∀ l : List RecFile,
      (l.filter fun f => !(isPthFile f)).filter isPthFile = [] := by
    intro l
    induction l with
    | nil => rfl
    | cons f rest ih =>
      cases f with
      | pthCkpt e => simp [List.filter, isPthFile, ih]
      | otherFile nm => simp [List.filter, isPthFile, ih]
  cases ckptWriteOk with
  | false => exact ⟨rfl, hclear st.checkpointFiles⟩
  | true =>
    refine ⟨rfl, ?_⟩
    simp [endOfEpoch, List.filter_append, hclear st.checkpointFiles, isPthFile]

/-- C8: resuming from a checkpoint saved at epoch E restores the saved model
state and optimizer state dict, and the epoch loop resumes at E + 1 (its
first iteration is epoch E + 1) whenever at least one epoch is requested. -/
theorem C8_resume_restores_state_and_epoch_numbering {μ ω : Type}
    (c : Checkpoint μ ω) (freshState : μ) (freshOpt : ω) (argsEpochs : ℕ)
    (h : 0 < argsEpochs) :
    (init_model freshState (some c)).state = c.model_state ∧
    (get_default_optimizer freshOpt (some c)).state_dict = c.optimizer_state_dict ∧
    (epochsRun (some c) argsEpochs).head? = some (c.epoch + 1) := by
  refine ⟨rfl, rfl, ?_⟩
  obtain ⟨k, rfl⟩ := Nat.exists_eq_succ_of_ne_zero h.ne'
  have hlen : total_epochs (some c) (k + 1) + 1 - initial_epoch (some c) = k + 1 := by
    simp [total_epochs, initial_epoch]
  rw [epochsRun, hlen, List.range'_succ]
  rfl

/-- C8 witness: resuming from a checkpoint at epoch 7 with three epochs
requested restores model state 42 and optimizer state 99 and first runs
epoch 8. -/
theorem C8_witness :
    (init_model 0 (some (⟨7, 42, 99⟩ : Checkpoint ℕ ℕ))).state = 42 ∧
    (get_default_optimizer 0 (some (⟨7, 42, 99⟩ : Checkpoint ℕ ℕ))).state_dict = 99 ∧
    (epochsRun (some (⟨7, 42, 99⟩ : Checkpoint ℕ ℕ)) 3).head? = some 8 :=
  C8_resume_restores_state_and_epoch_numbering ⟨7, 42, 99⟩ 0 0 3 (by decide)

/-- C9 counterexample: the claim states that the compute_loss assertion
fails if and only if forward has never been run on the instance. Running
forward once on a fresh instance with an 8 by 8 input (forward raises
RuntimeError at the side output concatenation before the assignments of
lines 92-96 complete) leaves both outputs unpopulated, so afterward the
assertion still fails even though forward has been run. -/
theorem C9_counterexample :
    hasForwardCall [COp.forwardOp ⟨8, 8⟩] = true ∧
    lossGuard (runOps [COp.forwardOp ⟨8, 8⟩] initLife) = false :=
  ⟨rfl, rfl⟩

/-- C9 amended: the guard is one shot with respect to successful forward
passes: along any sequence of forward and compute_loss calls on a fresh
instance, the compute_loss assertion passes exactly when some earlier
forward call completed without raising (forward populates both outputs on
completion, a raising forward leaves them unchanged, and compute_loss never
clears them). Given the concatenation defect, no forward call on a real
input ever completes, so in practice the assertion fails on every call. -/
theorem C9_guard_passes_iff_some_forward_succeeded :
    ∀ ops : List COp,
      lossGuard (runOps ops initLife) = true
        ↔ ∃ op ∈ ops, forwardSucceeded op = true := by
  intro ops
  rw [lossGuard_runOps ops initLife]
  simp [initLife, lossGuard]

/-- C10: the per batch loop catches only RuntimeError: if some batch raises
an exception of any other class, then once the loop reaches it (all earlier
batches having succeeded or raised RuntimeError), that exception propagates
out of the loop, whatever batches remain after it. -/
theorem C10_other_exception_classes_propagate {α : Type}
    (step : α → Except PyExc Unit) (ds1 : List α) (d : α) (ds2 : List α) (e : PyExc)
    (hd : step d = .error e) (he : e.isRuntimeErr = false)
    (h1 : ∀ x ∈ ds1, step x = .ok () ∨ ∃ m, step x = .error (.runtimeError m)) :
    runEpochLoop step (ds1 ++ d :: ds2) = .error e := by
  induction ds1 with
  | nil =>
    cases e with
    | runtimeError m => simp [PyExc.isRuntimeErr] at he
    | assertionError => simp [runEpochLoop, hd]
    | attributeError m => simp [runEpochLoop, hd]
    | otherError nm m => simp [runEpochLoop, hd]
  | cons x rest ih =>
    have ihr := ih fun y hy => h1 y (List.mem_cons_of_mem x hy)
    rcases h1 x (List.mem_cons_self x rest) with hok | ⟨m, herr⟩
    · simpa [runEpochLoop, hok] using ihr
    · simp [runEpochLoop, herr, ihr, Except.map]

/-- C10 witness: an epoch whose fourth batch raises AttributeError (after an
earlier batch raised a caught RuntimeError) aborts with that AttributeError. -/
theorem C10_witness :
    runEpochLoop demoStep [0, 1, 3, 4]
      = .error (.attributeError "int object has no attribute to") := by
  have h1 : ∀ x ∈ [0, 1], demoStep x = .ok () ∨
      ∃ m, demoStep x = .error (.runtimeError m) := by
    intro x hx
    fin_cases hx
    · exact Or.inr ⟨"cuda out of memory", rfl⟩
    · exact Or.inl rfl
  exact C10_other_exception_classes_propagate demoStep [0, 1] 3 [4]
    (.attributeError "int object has no attribute to") rfl rfl h1
